import Mathlib

/-!
Shallow embedding of the protocol engine of kizkiz (src/kizkiz/bluetooth.py).

The engine frames requests and responses over an RFCOMM byte stream,
parses inbound packets, maintains a device-state cache and notifies
registered observers.  Byte strings are modelled as `List Nat`, the
structured XML mapping produced by xmltodict as the inductive `XVal`,
and Python exceptions as the error type `PyErr`.  The method
`_handle_packet` is split into its frame stage (`handle_frame`, lines
233-254 of bluetooth.py) and its body stage (`handle_body`, lines
256-315); an inbound handler leaves its mutations in place even when it
raises, so the body stage returns the (possibly partially updated)
state together with an optional error.
-/

/-- Python exception kinds raised by the engine and by the library calls
it makes (struct.unpack, dict indexing, int()).  `protocolError` is the
ZikProtocolError of bluetooth.py. -/
inductive PyErr where
  | structError
  | keyError
  | typeError
  | valueError
  | protocolError
deriving Repr, DecidableEq

/-- The structured value produced by xmltodict.parse: a string leaf, a
nested mapping, or a list of repeated elements. -/
inductive XVal where
  | str : String → XVal
  | dict : List (String × XVal) → XVal
  | list : List XVal → XVal

/-- First-match key lookup in a mapping, as Python dict indexing finds it. -/
def plookup (d : List (String × XVal)) (k : String) : Option XVal :=
  match d with
  | [] => none
  | (k', v) :: rest => if k' = k then some v else plookup rest k

/-- Python `x[k]`: indexing a mapping returns the value or raises
KeyError; indexing a string or list with a string key raises TypeError. -/
def getItem : XVal → String → Except PyErr XVal
  | .dict d, k =>
    match plookup d k with
    | some v => .ok v
    | none => .error .keyError
  | .str _, _ => .error .typeError
  | .list _, _ => .error .typeError

/-- Two chained lookups, `x[k1][k2]`. -/
def getItem2 (x : XVal) (k1 k2 : String) : Except PyErr XVal :=
  match getItem x k1 with
  | .error e => .error e
  | .ok a => getItem a k2

/-- Python `x == s` for a string literal `s`: true only when `x` is the
equal string; a mapping or list never equals a string. -/
def xeq (x : XVal) (s : String) : Bool :=
  match x with
  | .str t => decide (t = s)
  | _ => false

/-- Python `str(x)`: the string itself for a string leaf; for the
non-string shapes (never produced by a well-formed device payload at
the places this is applied) a fixed stand-in for the repr text. -/
def pyStrOf : XVal → String
  | .str s => s
  | .dict _ => "OrderedDict"
  | .list _ => "list"

/-- Digit run of a Python int literal: nonempty, all decimal digits. -/
def parseNatDigits (cs : List Char) : Option Nat :=
  if cs.isEmpty then none
  else if cs.all Char.isDigit then
    some (cs.foldl (fun a c => a * 10 + (c.toNat - 48)) 0)
  else none

/-- Leading and trailing whitespace stripped from a character list, as
Python int() tolerates around the literal. -/
def pyStrip (cs : List Char) : List Char :=
  ((cs.dropWhile Char.isWhitespace).reverse.dropWhile Char.isWhitespace).reverse

/-- Python `int(s)` on a string: optional surrounding whitespace, an
optional sign, then a nonempty run of decimal digits; anything else
fails. -/
def parse_int (s : String) : Option Int :=
  match pyStrip s.data with
  | '-' :: rest => (parseNatDigits rest).map (fun n => -(n : Int))
  | '+' :: rest => (parseNatDigits rest).map (fun n => (n : Int))
  | cs => (parseNatDigits cs).map (fun n => (n : Int))

/-- Python `int(x)` on a structured value: parses a string leaf, raises
ValueError when the string is not an integer literal, and TypeError on
a mapping or list. -/
def pyInt (x : XVal) : Except PyErr Int :=
  match x with
  | .str s =>
    match parse_int s with
    | some k => .ok k
    | none => .error .valueError
  | _ => .error .typeError

/-- ZikProxy.BatteryState.IN_USE. -/
def BatteryState.IN_USE : Nat := 10
/-- ZikProxy.BatteryState.CHARGING. -/
def BatteryState.CHARGING : Nat := 20
/-- ZikProxy.BatteryState.CALC. -/
def BatteryState.CALC : Nat := 30

def ZIK_SYS_BATTERY_GET : String := "/api/system/battery/get"
def ZIK_SYS_VERSION_GET : String := "/api/software/version/get"
def ZIK_AUDIO_NOISE_GET : String := "/api/audio/noise_cancellation/enabled/get"
def ZIK_AUDIO_NOISE_SET : String := "/api/audio/noise_cancellation/enabled/set"
def ZIK_AUDIO_SPECIFIC_MODE_GET : String := "/api/audio/specific_mode/enabled/get"
def ZIK_EQ_GET : String := "/api/audio/equalizer/get"
def ZIK_EQ_PRESETS_GET : String := "/api/audio/equalizer/presets_list/get"
def ZIK_EQ_ENABLE_SET : String := "/api/audio/equalizer/enabled/set"
def ZIK_EQ_PRESET_SET : String := "/api/audio/equalizer/preset_id/set"

/-- The state-store fields of a ZikProxy instance (the `_s_*`
attributes).  `s_version` holds the structured value assigned from the
answer payload; fields that start as Python None are Options. -/
structure ZikState where
  s_version : Option XVal
  s_battery_level : Int
  s_battery_state : Nat
  s_noise_cancellation : Bool
  s_eq_presets : List (Int × XVal)
  s_eq_preset_id : Option Int
  s_eq_enabled : Bool
  s_specific_mode : Option Bool

/-- The state store as `__init__` (lines 110-117) leaves it. -/
def initState : ZikState :=
  { s_version := none
    s_battery_level := 0
    s_battery_state := BatteryState.IN_USE
    s_noise_cancellation := false
    s_eq_presets := []
    s_eq_preset_id := none
    s_eq_enabled := false
    s_specific_mode := none }

/-- A Python value passed as the `value` argument of `_request`. -/
inductive PyVal where
  | pbool : Bool → PyVal
  | pint : Int → PyVal
  | pstr : String → PyVal
deriving Repr, DecidableEq

/-- The rendering `{True: True -> true, False -> false}.get(value, value)`
then string formatting, from `_request` (lines 203-208).  Python bool is
a subtype of int, so the dict lookup also maps the integers 1 and 0 to
the literals true and false. -/
def render_value : PyVal → String
  | .pbool b => if b then "true" else "false"
  | .pint n => if n = 1 then "true" else if n = 0 then "false" else toString n
  | .pstr s => s

/-- One outbound request handed to `_request`: method, endpoint and
optional value. -/
structure Request where
  method : String
  endpoint : String
  value : Option PyVal
deriving Repr, DecidableEq

/-- The ASCII command body `_request` builds (lines 198-208):
method, space, endpoint, and the optional `?arg=` suffix. -/
def request_body (r : Request) : String :=
  r.method ++ " " ++ r.endpoint ++
    (match r.value with
     | none => ""
     | some v => "?arg=" ++ render_value v)

/-- Bytes of an ASCII command string. -/
def strBytes (s : String) : List Nat := s.data.map Char.toNat

/-- The frame `struct.pack` of `_request` (lines 210-215) produces: a
big-endian u16 equal to the body length plus 3, the type byte 0x80, then
the body.  struct.pack raises when the length does not fit a u16, so the
encoder is partial. -/
def encode_frame (body : List Nat) : Option (List Nat) :=
  if body.length + 3 ≤ 65535 then
    some ((body.length + 3) / 256 :: (body.length + 3) % 256 :: 128 :: body)
  else none

/-- Reading the declared total length from the 3-byte header, as
`struct.unpack` at line 235 does; fails when fewer than 3 bytes are
available. -/
def decode_total_length (raw : List Nat) : Option Nat :=
  match raw with
  | b0 :: b1 :: _ :: _ => some (b0 * 256 + b1)
  | _ => none

/-- Outcome of the frame stage of `_handle_packet`. -/
inductive FrameStage where
  | handshake
  | ignored
  | toXml : List Nat → FrameStage
deriving Repr, DecidableEq

/-- The frame stage of `_handle_packet` (lines 233-254): read the 3-byte
header; type 0x00 returns at once; type 0x80 reads the 4-byte
sub-header, then reads `packet_size - 7` bytes of XML with a strict
unpack; any other type falls through the if chain and does nothing.  A
read that returns fewer bytes than the strict format demands, and a
negative repeat count in the format string, raise struct.error. -/
def handle_frame (packet : List Nat) : Except PyErr FrameStage :=
  match packet with
  | b0 :: b1 :: b2 :: rest =>
    let packet_size := b0 * 256 + b1
    if b2 = 0 then .ok .handshake
    else if b2 = 128 then
      match rest with
      | _ :: _ :: _ :: _ :: body =>
        if packet_size < 7 then .error .structError
        else if body.length < packet_size - 7 then .error .structError
        else .ok (.toXml (body.take (packet_size - 7)))
      | _ => .error .structError
    else .ok .ignored
  | _ => .error .structError

/-- Battery endpoint handler (lines 269-286).  In the non-charging
branch `_s_battery_state` is assigned IN_USE before the level field is
read, so an error there leaves that assignment in place. -/
def handle_battery (n : XVal) (st : ZikState) : ZikState × Option PyErr :=
  match getItem2 n "system" "battery" with
  | .error e => (st, some e)
  | .ok battery =>
    match getItem battery "@state" with
    | .error e => (st, some e)
    | .ok sv =>
      if xeq sv "charging" then
        ({ st with s_battery_level := -1,
                   s_battery_state := BatteryState.CHARGING }, none)
      else
        let st1 := { st with s_battery_state := BatteryState.IN_USE }
        match getItem battery "@level" with
        | .error e => (st1, some e)
        | .ok lv =>
          if xeq lv "" then
            ({ st1 with s_battery_level := 0,
                        s_battery_state := BatteryState.CALC }, none)
          else
            match pyInt lv with
            | .error e => (st1, some e)
            | .ok k => ({ st1 with s_battery_level := k }, none)

/-- Noise-cancellation endpoint handler (lines 287-290). -/
def handle_noise (n : XVal) (st : ZikState) : ZikState × Option PyErr :=
  match getItem2 n "audio" "noise_cancellation" with
  | .error e => (st, some e)
  | .ok nc =>
    match getItem nc "@enabled" with
    | .error e => (st, some e)
    | .ok ev => ({ st with s_noise_cancellation := xeq ev "true" }, none)

/-- Software-version endpoint handler (lines 291-293); the payload value
is stored as-is. -/
def handle_version (n : XVal) (st : ZikState) : ZikState × Option PyErr :=
  match getItem2 n "software" "@version" with
  | .error e => (st, some e)
  | .ok v => ({ st with s_version := some v }, none)

/-- Specific-mode endpoint handler (lines 294-297). -/
def handle_specific (n : XVal) (st : ZikState) : ZikState × Option PyErr :=
  match getItem2 n "audio" "specific_mode" with
  | .error e => (st, some e)
  | .ok sm =>
    match getItem sm "@enabled" with
    | .error e => (st, some e)
    | .ok ev => ({ st with s_specific_mode := some (xeq ev "true") }, none)

/-- The list comprehension at lines 302-304.  Iterating a mapping in
Python yields its keys and iterating a string yields its characters, so
a nonempty mapping or string makes the per-element string indexing raise
TypeError; both give the empty list when empty. -/
def parse_presets (x : XVal) : Except PyErr (List (Int × XVal)) :=
  match x with
  | .list xs =>
    xs.mapM (fun p => do
      let idv ← getItem p "@id"
      let i ← pyInt idv
      let nv ← getItem p "@name"
      pure (i, nv))
  | .dict [] => .ok []
  | .dict _ => .error .typeError
  | .str s => if s.isEmpty then .ok [] else .error .typeError

/-- EQ presets-list endpoint handler (lines 298-304); the comprehension
is built in full before the assignment, so an error leaves the store
untouched. -/
def handle_presets (n : XVal) (st : ZikState) : ZikState × Option PyErr :=
  match getItem2 n "audio" "equalizer" with
  | .error e => (st, some e)
  | .ok eqn =>
    match getItem2 eqn "presets_list" "preset" with
    | .error e => (st, some e)
    | .ok presets =>
      match parse_presets presets with
      | .error e => (st, some e)
      | .ok ps => ({ st with s_eq_presets := ps }, none)

/-- EQ state endpoint handler (lines 305-308).  `_s_eq_enabled` is
assigned before `_s_eq_preset_id` is computed, so an integer-parse error
on the preset id leaves the enabled flag already updated. -/
def handle_eq (n : XVal) (st : ZikState) : ZikState × Option PyErr :=
  match getItem2 n "audio" "equalizer" with
  | .error e => (st, some e)
  | .ok eqn =>
    match getItem eqn "@enabled" with
    | .error e => (st, some e)
    | .ok ev =>
      let st1 := { st with s_eq_enabled := xeq ev "true" }
      match getItem eqn "@preset_id" with
      | .error e => (st1, some e)
      | .ok pv =>
        match pyInt pv with
        | .error e => (st1, some e)
        | .ok k => ({ st1 with s_eq_preset_id := some k }, none)

/-- Result of the body stage of `_handle_packet`: the state store after
the handler ran (partial mutations included), the outbound requests it
issued, whether the observer loop at lines 314-315 ran (when true, every
registered observer is invoked exactly once with the final state), and
the exception that escaped, if any. -/
structure HRes where
  state : ZikState
  requests : List Request
  dispatched : Bool
  error : Option PyErr

/-- The body stage of `_handle_packet` (lines 256-315), applied to the
top-level mapping xmltodict.parse returned.  A notify body triggers one
GET for its path and returns before the observer loop; a missing answer
node raises ZikProtocolError; an answer is dispatched on its echoed path,
unknown paths only being printed; the observer loop runs only when the
endpoint handler finished without an exception. -/
def handle_body (pb : List (String × XVal)) (st : ZikState) : HRes :=
  match plookup pb "notify" with
  | some nv =>
    match getItem nv "@path" with
    | .error e => ⟨st, [], false, some e⟩
    | .ok pathv => ⟨st, [⟨"GET", pyStrOf pathv, none⟩], false, none⟩
  | none =>
    match plookup pb "answer" with
    | none => ⟨st, [], false, some .protocolError⟩
    | some n =>
      match getItem n "@path" with
      | .error e => ⟨st, [], false, some e⟩
      | .ok pathv =>
        let r :=
          if xeq pathv ZIK_SYS_BATTERY_GET then handle_battery n st
          else if xeq pathv ZIK_AUDIO_NOISE_GET then handle_noise n st
          else if xeq pathv ZIK_SYS_VERSION_GET then handle_version n st
          else if xeq pathv ZIK_AUDIO_SPECIFIC_MODE_GET then handle_specific n st
          else if xeq pathv ZIK_EQ_PRESETS_GET then handle_presets n st
          else if xeq pathv ZIK_EQ_GET then handle_eq n st
          else (st, none)
        match r.2 with
        | some e => ⟨r.1, [], false, some e⟩
        | none => ⟨r.1, [], true, none⟩

/-- The `s_noise_cancellation` property setter (lines 381-385):
optimistic local write, then one SET request. -/
def set_noise_cancellation (st : ZikState) (value : Bool) :
    ZikState × List Request :=
  ({ st with s_noise_cancellation := value },
   [⟨"SET", ZIK_AUDIO_NOISE_SET, some (.pbool value)⟩])

/-- The `s_eq_enabled` property setter (lines 414-418). -/
def set_eq_enabled (st : ZikState) (value : Bool) :
    ZikState × List Request :=
  ({ st with s_eq_enabled := value },
   [⟨"SET", ZIK_EQ_ENABLE_SET, some (.pbool value)⟩])

/-- The `s_eq_preset_id` property setter (lines 399-403). -/
def set_eq_preset_id (st : ZikState) (value : Int) :
    ZikState × List Request :=
  ({ st with s_eq_preset_id := some value },
   [⟨"SET", ZIK_EQ_PRESET_SET, some (.pint value)⟩])

/-- A well-formed battery answer body with the given state and level
attribute strings. -/
def batteryAnswer (sv lv : String) : List (String × XVal) :=
  [("answer", .dict
    [("@path", .str ZIK_SYS_BATTERY_GET),
     ("system", .dict
       [("battery", .dict
         [("@state", .str sv), ("@level", .str lv)])])])]

/-- A well-formed EQ state answer body with the given enabled and
preset-id attribute strings. -/
def eqAnswer (ev pv : String) : List (String × XVal) :=
  [("answer", .dict
    [("@path", .str ZIK_EQ_GET),
     ("audio", .dict
       [("equalizer", .dict
         [("@enabled", .str ev), ("@preset_id", .str pv)])])])]

/-- A well-formed notify body carrying the given path. -/
def notifyBody (p : String) : List (String × XVal) :=
  [("notify", .dict [("@path", .str p)])]

/-- A well-formed answer body on an arbitrary path with an arbitrary
further payload. -/
def genericAnswer (path : String) (payload : List (String × XVal)) :
    List (String × XVal) :=
  [("answer", .dict (("@path", .str path) :: payload))]

/-- C5: a well-formed notify packet carrying path P issues exactly one
outbound GET request for P, mutates no state-store field, and invokes no
registered observer. -/
theorem notify_triggers_single_get (p : String) (st : ZikState) :
    handle_body (notifyBody p) st = ⟨st, [⟨"GET", p, none⟩], false, none⟩ := by
  rfl

/-- C4: battery answer semantics: a charging state yields CHARGING with
the sentinel level -1 regardless of the level content; otherwise an
empty level yields CALC with level 0, and a nonempty level yields IN_USE
with the parsed integer level. -/
theorem battery_answer_semantics (sv lv : String) (k : Int) (st : ZikState) :
    (sv = "charging" →
      handle_body (batteryAnswer sv lv) st =
        ⟨{ st with s_battery_level := -1,
                   s_battery_state := BatteryState.CHARGING }, [], true, none⟩) ∧
    (sv ≠ "charging" → lv = "" →
      handle_body (batteryAnswer sv lv) st =
        ⟨{ st with s_battery_state := BatteryState.CALC,
                   s_battery_level := 0 }, [], true, none⟩) ∧
    (sv ≠ "charging" → lv ≠ "" → parse_int lv = some k →
      handle_body (batteryAnswer sv lv) st =
        ⟨{ st with s_battery_state := BatteryState.IN_USE,
                   s_battery_level := k }, [], true, none⟩) := by
  refine ⟨?_, ?_, ?_⟩
  · intro h
    subst h
    rfl
  · intro h h2
    subst h2
    simp [handle_body, batteryAnswer, handle_battery, getItem2, getItem,
      plookup, xeq, h, ZIK_SYS_BATTERY_GET, ZIK_AUDIO_NOISE_GET,
      ZIK_SYS_VERSION_GET, ZIK_AUDIO_SPECIFIC_MODE_GET, ZIK_EQ_PRESETS_GET,
      ZIK_EQ_GET]
  · intro h h2 h3
    simp [handle_body, batteryAnswer, handle_battery, getItem2, getItem,
      plookup, xeq, pyInt, h, h2, h3, ZIK_SYS_BATTERY_GET,
      ZIK_AUDIO_NOISE_GET, ZIK_SYS_VERSION_GET, ZIK_AUDIO_SPECIFIC_MODE_GET,
      ZIK_EQ_PRESETS_GET, ZIK_EQ_GET]

/-- Witness for the battery answer semantics at a concrete packet. -/
theorem battery_answer_semantics_witness :
    ("x" : String) ≠ "charging" ∧ ("42" : String) ≠ "" ∧
      parse_int "42" = some 42 ∧
      handle_body (batteryAnswer "x" "42") initState =
        ⟨{ initState with s_battery_state := BatteryState.IN_USE,
                          s_battery_level := 42 }, [], true, none⟩ :=
  ⟨by decide, by decide, by decide,
   (battery_answer_semantics "x" "42" 42 initState).2.2
     (by decide) (by decide) (by decide)⟩

/-- C7: a body with neither a notify node nor an answer node raises
ZikProtocolError, with the state store unchanged, no request issued and
no observer invoked. -/
theorem missing_answer_protocol_error (pb : List (String × XVal))
    (st : ZikState) (hn : plookup pb "notify" = none)
    (ha : plookup pb "answer" = none) :
    handle_body pb st = ⟨st, [], false, some .protocolError⟩ := by
  unfold handle_body
  rw [hn, ha]

/-- Witness for the missing-node case at the empty body. -/
theorem missing_answer_protocol_error_witness :
    plookup [] "notify" = none ∧ plookup [] "answer" = none ∧
      handle_body [] initState =
        ⟨initState, [], false, some .protocolError⟩ :=
  ⟨rfl, rfl, missing_answer_protocol_error [] initState rfl rfl⟩

/-- C8: each setter updates exactly its own state-store field to the
given value (the record update leaves every other field unchanged) and
issues exactly one SET request for its endpoint, in whose command body a
boolean value renders as the literal true or false. -/
theorem setters_optimistic_update (st : ZikState) (b : Bool) (n : Int) :
    set_noise_cancellation st b =
      ({ st with s_noise_cancellation := b },
       [⟨"SET", ZIK_AUDIO_NOISE_SET, some (.pbool b)⟩]) ∧
    set_eq_enabled st b =
      ({ st with s_eq_enabled := b },
       [⟨"SET", ZIK_EQ_ENABLE_SET, some (.pbool b)⟩]) ∧
    set_eq_preset_id st n =
      ({ st with s_eq_preset_id := some n },
       [⟨"SET", ZIK_EQ_PRESET_SET, some (.pint n)⟩]) ∧
    request_body ⟨"SET", ZIK_AUDIO_NOISE_SET, some (.pbool b)⟩ =
      "SET " ++ ZIK_AUDIO_NOISE_SET ++ "?arg=" ++
        (if b then "true" else "false") ∧
    request_body ⟨"SET", ZIK_EQ_ENABLE_SET, some (.pbool b)⟩ =
      "SET " ++ ZIK_EQ_ENABLE_SET ++ "?arg=" ++
        (if b then "true" else "false") := by
  refine ⟨rfl, rfl, rfl, ?_, ?_⟩ <;> cases b <;> rfl

/-- C9: the header written by the frame encoder round-trips: decoding
the encoded frame reads a total length equal to the length of the whole
encoded frame. -/
theorem encode_decode_total_length (method endpoint : String)
    (value : Option PyVal) (enc : List Nat)
    (h : encode_frame (strBytes (request_body ⟨method, endpoint, value⟩))
          = some enc) :
    decode_total_length enc = some enc.length := by
  unfold encode_frame at h
  by_cases hc :
      (strBytes (request_body ⟨method, endpoint, value⟩)).length + 3 ≤ 65535
  · rw [if_pos hc] at h
    injection h with h2
    subst h2
    simp only [decode_total_length, List.length_cons, Option.some.injEq]
    omega
  · rw [if_neg hc] at h
    exact Option.noConfusion h

/-- The encoded sample frame for the round-trip witness. -/
def encSample : List Nat :=
  (encode_frame (strBytes
    (request_body ⟨"GET", ZIK_SYS_BATTERY_GET, none⟩))).getD []

/-- Witness for the header round-trip at a concrete request. -/
theorem encode_decode_total_length_witness :
    decode_total_length encSample = some encSample.length :=
  encode_decode_total_length "GET" ZIK_SYS_BATTERY_GET none encSample (by rfl)

/-- C10: the freshly constructed store reports IN_USE with level 0,
noise cancellation and EQ disabled, no version, preset id or specific
mode, and an empty preset list; a genuine device report of level 0 while
in use leaves those battery fields at exactly the same values, so the
two are indistinguishable through the accessors. -/
theorem initial_state_defaults :
    initState.s_battery_state = BatteryState.IN_USE ∧
    initState.s_battery_level = 0 ∧
    initState.s_noise_cancellation = false ∧
    initState.s_eq_enabled = false ∧
    initState.s_version = none ∧
    initState.s_eq_preset_id = none ∧
    initState.s_specific_mode = none ∧
    initState.s_eq_presets = [] ∧
    (handle_body (batteryAnswer "in_use" "0") initState).state.s_battery_state
      = initState.s_battery_state ∧
    (handle_body (batteryAnswer "in_use" "0") initState).state.s_battery_level
      = initState.s_battery_level ∧
    (handle_body (batteryAnswer "in_use" "0") initState).error = none := by
  refine ⟨rfl, rfl, rfl, rfl, rfl, rfl, rfl, rfl, ?_, ?_, rfl⟩ <;> decide

/-- Reduction of the frame stage on a type-0x80 packet with a full
sub-header. -/
theorem handle_frame_x80 (b0 b1 x y z1 z2 : Nat) (body : List Nat) :
    handle_frame (b0 :: b1 :: 128 :: x :: y :: z1 :: z2 :: body) =
      (if b0 * 256 + b1 < 7 then .error .structError
       else if body.length < b0 * 256 + b1 - 7 then .error .structError
       else .ok (.toXml (body.take (b0 * 256 + b1 - 7)))) := rfl

/-- C1 counterexample: a type-0x80 buffer of 9 bytes whose header
declares a total length of 8 is not rejected; its truncated body is
handed on to XML parsing. -/
theorem frame_length_mismatch_counterexample :
    handle_frame [0, 8, 128, 0, 0, 0, 0, 65, 66] = .ok (.toXml [65]) ∧
      ([0, 8, 128, 0, 0, 0, 0, 65, 66] : List Nat).length ≠ 0 * 256 + 8 :=
  ⟨rfl, by decide⟩

/-- C1 amended: a buffer shorter than 3 bytes fails at the header; a
type-0x80 buffer fails before XML parsing when it lacks the 4-byte
sub-header, when the declared total length is below 7, or when the
buffer is shorter than the declared total length; but a buffer at least
as long as the declared total length is accepted with trailing bytes
dropped, the truncated body reaching XML parsing. -/
theorem handle_frame_spec (packet : List Nat) :
    (packet.length < 3 → handle_frame packet = .error .structError) ∧
    (∀ b0 b1 rest, packet = b0 :: b1 :: 128 :: rest →
      ((rest.length < 4 ∨ b0 * 256 + b1 < 7 ∨
          packet.length < b0 * 256 + b1) →
        handle_frame packet = .error .structError) ∧
      (4 ≤ rest.length → 7 ≤ b0 * 256 + b1 →
        b0 * 256 + b1 ≤ packet.length →
        handle_frame packet =
          .ok (.toXml ((rest.drop 4).take (b0 * 256 + b1 - 7))))) := by
  constructor
  · intro h
    rcases packet with _ | ⟨a, _ | ⟨b, _ | ⟨c, t⟩⟩⟩
    · rfl
    · rfl
    · rfl
    · simp only [List.length_cons] at h
      omega
  · rintro b0 b1 rest rfl
    constructor
    · intro hcase
      rcases rest with _ | ⟨x, _ | ⟨y, _ | ⟨z1, _ | ⟨z2, body⟩⟩⟩⟩
      · rfl
      · rfl
      · rfl
      · rfl
      · rw [handle_frame_x80]
        simp only [List.length_cons] at hcase
        rcases hcase with hc | hc | hc
        · exact absurd hc (by omega)
        · rw [if_pos hc]
        · rw [if_neg (by omega : ¬ b0 * 256 + b1 < 7),
            if_pos (by omega : body.length < b0 * 256 + b1 - 7)]
    · intro h4 h7 hle
      rcases rest with _ | ⟨x, _ | ⟨y, _ | ⟨z1, _ | ⟨z2, body⟩⟩⟩⟩
      · simp only [List.length_nil] at h4
        omega
      · simp only [List.length_cons, List.length_nil] at h4
        omega
      · simp only [List.length_cons, List.length_nil] at h4
        omega
      · simp only [List.length_cons, List.length_nil] at h4
        omega
      · simp only [List.length_cons] at hle
        rw [handle_frame_x80, if_neg (by omega : ¬ b0 * 256 + b1 < 7),
          if_neg (by omega : ¬ body.length < b0 * 256 + b1 - 7)]
        rfl

/-- Witness for the frame-stage cases at a concrete short buffer. -/
theorem handle_frame_spec_witness :
    ([] : List Nat).length < 3 ∧ handle_frame [] = .error .structError :=
  ⟨by decide, (handle_frame_spec []).1 (by decide)⟩

/-- C2 counterexample: an EQ state answer whose preset id is not an
integer literal updates eq_enabled, then raises, leaving eq_preset_id
untouched: the related group is only partially applied. -/
theorem eq_group_partial_update_counterexample :
    initState.s_eq_enabled = false ∧
      (handle_body (eqAnswer "true" "abc") initState).state.s_eq_enabled
        = true ∧
      (handle_body (eqAnswer "true" "abc") initState).state.s_eq_preset_id
        = none ∧
      (handle_body (eqAnswer "true" "abc") initState).error
        = some PyErr.valueError :=
  ⟨rfl, rfl, rfl, rfl⟩

/-- C2 amended: a handler that terminates without an error applies its
whole related group before dispatch (battery_state always together with
battery_level, eq_enabled together with eq_preset_id); only a handler
that terminates with an error can leave the group half-applied. -/
theorem group_update_atomic_on_success (sv lv ev pv : String)
    (st : ZikState) :
    ((handle_body (batteryAnswer sv lv) st).error = none →
      ((handle_body (batteryAnswer sv lv) st).state.s_battery_state
          = BatteryState.CHARGING ∧
        (handle_body (batteryAnswer sv lv) st).state.s_battery_level = -1) ∨
      ((handle_body (batteryAnswer sv lv) st).state.s_battery_state
          = BatteryState.CALC ∧
        (handle_body (batteryAnswer sv lv) st).state.s_battery_level = 0) ∨
      ((handle_body (batteryAnswer sv lv) st).state.s_battery_state
          = BatteryState.IN_USE ∧
        ∃ k, parse_int lv = some k ∧
          (handle_body (batteryAnswer sv lv) st).state.s_battery_level = k)) ∧
    ((handle_body (eqAnswer ev pv) st).error = none →
      (handle_body (eqAnswer ev pv) st).state.s_eq_enabled
          = decide (ev = "true") ∧
      ∃ k, parse_int pv = some k ∧
        (handle_body (eqAnswer ev pv) st).state.s_eq_preset_id = some k) := by
  constructor
  · intro he
    by_cases hsv : sv = "charging"
    · subst hsv
      left
      exact ⟨rfl, rfl⟩
    · by_cases hlv : lv = ""
      · subst hlv
        right; left
        constructor <;>
          simp [handle_body, batteryAnswer, handle_battery, getItem2,
            getItem, plookup, xeq, hsv, ZIK_SYS_BATTERY_GET,
            ZIK_AUDIO_NOISE_GET, ZIK_SYS_VERSION_GET,
            ZIK_AUDIO_SPECIFIC_MODE_GET, ZIK_EQ_PRESETS_GET, ZIK_EQ_GET]
      · rcases hp : parse_int lv with _ | k
        · exfalso
          simp [handle_body, batteryAnswer, handle_battery, getItem2,
            getItem, plookup, xeq, pyInt, hsv, hlv, hp,
            ZIK_SYS_BATTERY_GET, ZIK_AUDIO_NOISE_GET, ZIK_SYS_VERSION_GET,
            ZIK_AUDIO_SPECIFIC_MODE_GET, ZIK_EQ_PRESETS_GET,
            ZIK_EQ_GET] at he
        · right; right
          refine ⟨?_, k, rfl, ?_⟩ <;>
            simp [handle_body, batteryAnswer, handle_battery, getItem2,
              getItem, plookup, xeq, pyInt, hsv, hlv, hp,
              ZIK_SYS_BATTERY_GET, ZIK_AUDIO_NOISE_GET,
              ZIK_SYS_VERSION_GET, ZIK_AUDIO_SPECIFIC_MODE_GET,
              ZIK_EQ_PRESETS_GET, ZIK_EQ_GET]
  · intro he
    rcases hp : parse_int pv with _ | k
    · exfalso
      simp [handle_body, eqAnswer, handle_eq, getItem2, getItem, plookup,
        xeq, pyInt, hp, ZIK_SYS_BATTERY_GET, ZIK_AUDIO_NOISE_GET,
        ZIK_SYS_VERSION_GET, ZIK_AUDIO_SPECIFIC_MODE_GET,
        ZIK_EQ_PRESETS_GET, ZIK_EQ_GET] at he
    · refine ⟨?_, k, rfl, ?_⟩ <;>
        simp [handle_body, eqAnswer, handle_eq, getItem2, getItem, plookup,
          xeq, pyInt, hp, ZIK_SYS_BATTERY_GET, ZIK_AUDIO_NOISE_GET,
          ZIK_SYS_VERSION_GET, ZIK_AUDIO_SPECIFIC_MODE_GET,
          ZIK_EQ_PRESETS_GET, ZIK_EQ_GET]

/-- Witness for atomic group application, at an error-free EQ answer. -/
theorem group_update_atomic_on_success_witness :
    (handle_body (eqAnswer "true" "3") initState).error = none ∧
      (handle_body (eqAnswer "true" "3") initState).state.s_eq_enabled
          = decide (("true" : String) = "true") ∧
      ∃ k, parse_int "3" = some k ∧
        (handle_body (eqAnswer "true" "3") initState).state.s_eq_preset_id
          = some k :=
  ⟨rfl,
   ((group_update_atomic_on_success "x" "" "true" "3" initState).2 rfl).1,
   ((group_update_atomic_on_success "x" "" "true" "3" initState).2 rfl).2⟩

/-- C3 counterexample: a battery answer whose level is not an integer
literal makes handling fail with ValueError, which is not the
ZikProtocolError the claim requires. -/
theorem numeric_parse_error_counterexample :
    (handle_body (batteryAnswer "in_use" "abc") initState).error
        = some PyErr.valueError ∧
      some PyErr.valueError ≠ some PyErr.protocolError :=
  ⟨rfl, by decide⟩

/-- C3 amended: a numeric field that does not parse as an integer on the
battery or EQ endpoint makes handling fail with the integer-parse error
ValueError (so nothing is silently defaulted), not with
ZikProtocolError. -/
theorem numeric_parse_value_error (sv lv ev pv : String) (st : ZikState)
    (hs : sv ≠ "charging") (hl : lv ≠ "") (hlp : parse_int lv = none)
    (hpp : parse_int pv = none) :
    (handle_body (batteryAnswer sv lv) st).error = some PyErr.valueError ∧
      (handle_body (eqAnswer ev pv) st).error = some PyErr.valueError := by
  constructor
  · simp [handle_body, batteryAnswer, handle_battery, getItem2, getItem,
      plookup, xeq, pyInt, hs, hl, hlp, ZIK_SYS_BATTERY_GET,
      ZIK_AUDIO_NOISE_GET, ZIK_SYS_VERSION_GET, ZIK_AUDIO_SPECIFIC_MODE_GET,
      ZIK_EQ_PRESETS_GET, ZIK_EQ_GET]
  · simp [handle_body, eqAnswer, handle_eq, getItem2, getItem, plookup,
      xeq, pyInt, hpp, ZIK_SYS_BATTERY_GET, ZIK_AUDIO_NOISE_GET,
      ZIK_SYS_VERSION_GET, ZIK_AUDIO_SPECIFIC_MODE_GET, ZIK_EQ_PRESETS_GET,
      ZIK_EQ_GET]

/-- Witness for the ValueError behaviour at concrete packets. -/
theorem numeric_parse_value_error_witness :
    ("x" : String) ≠ "charging" ∧ ("abc" : String) ≠ "" ∧
      parse_int "abc" = none ∧ parse_int "zz" = none ∧
      (handle_body (batteryAnswer "x" "abc") initState).error
        = some PyErr.valueError ∧
      (handle_body (eqAnswer "true" "zz") initState).error
        = some PyErr.valueError :=
  ⟨by decide, by decide, by decide, by decide,
   (numeric_parse_value_error "x" "abc" "true" "zz" initState
     (by decide) (by decide) (by decide) (by decide)).1,
   (numeric_parse_value_error "x" "abc" "true" "zz" initState
     (by decide) (by decide) (by decide) (by decide)).2⟩

/-- C6: a well-formed answer on a path matching none of the known
endpoints raises nothing and leaves every state-store field unchanged,
while the observer loop still runs with the unchanged state. -/
theorem unknown_path_ignored_still_dispatched (path : String)
    (payload : List (String × XVal)) (st : ZikState)
    (h1 : path ≠ ZIK_SYS_BATTERY_GET) (h2 : path ≠ ZIK_AUDIO_NOISE_GET)
    (h3 : path ≠ ZIK_SYS_VERSION_GET)
    (h4 : path ≠ ZIK_AUDIO_SPECIFIC_MODE_GET)
    (h5 : path ≠ ZIK_EQ_PRESETS_GET) (h6 : path ≠ ZIK_EQ_GET) :
    handle_body (genericAnswer path payload) st = ⟨st, [], true, none⟩ := by
  simp [handle_body, genericAnswer, getItem, plookup, xeq,
    h1, h2, h3, h4, h5, h6]

/-- Witness for the unknown-endpoint case at a concrete path. -/
theorem unknown_path_ignored_still_dispatched_witness :
    handle_body (genericAnswer "/api/system/device_type/get" []) initState
      = ⟨initState, [], true, none⟩ :=
  unknown_path_ignored_still_dispatched "/api/system/device_type/get" []
    initState (by decide) (by decide) (by decide) (by decide) (by decide)
    (by decide)
